import Mathlib

/-!
Verification of the `pelican_bibtex` plugin (file `pelican_bibtex.py`).

The plugin reads a BibTeX file, delegates parsing/formatting/serialisation
to the external `pybtex` library, and builds a list of publication records
that it stores in the generator context under the key `publications`.

The shallow embedding below mirrors the Python source:
* Python dicts appear as association lists with first-match lookup;
* `get_field` and `entrytype` are translated line by line;
* the per-entry record (a Python dict literal with twelve keys) becomes a
  `List (String × Value)` built in the literal's key order, where `Value`
  distinguishes strings, Python `None`, and the `(rank, label)` tuple;
* `str.replace(old, "")` for the four concrete patterns `\x5c\x7b`,
  `\x5c\x7d`, `\x7b`, `\x7d` becomes `stripPair` / `stripChar`, scanning
  left to right over the character list exactly as CPython does;
* the external collaborators (`pybtex` parser, style formatter, BibTeX
  writer, HTML render backend) are opaque function parameters, and
  `add_publications` is a function from settings/context (plus those
  oracles) to the new context paired with the emitted log; `none` models
  an uncaught exception.
-/

namespace PelicanBibtex

/-- First-match lookup in an association list: the embedding of a Python
dict read `d[k]` / `d.get(k)` (`some` iff `k in d`). -/
def lookupA {α : Type} (l : List (String × α)) (k : String) : Option α :=
  (l.find? (fun p => p.1 == k)).map (fun p => p.2)

/-- A parsed BibTeX entry as this plugin sees it: the pybtex `Entry` object
with its `type` tag and its `fields` mapping. -/
structure Entry where
  type : String
  fields : List (String × String)
deriving DecidableEq

/-- Python `fields.get(field)` on the entry's field dict: a read operation
returning the looked-up value together with the mapping afterwards (dict
`.get` never mutates, so the mapping comes back unchanged). -/
def dictGet (fs : List (String × String)) (k : String) :
    Option String × List (String × String) :=
  (lookupA fs k, fs)

/-- Embedding of `get_field` (pelican_bibtex.py lines 23-27), threaded
through the entry state: `entry.fields.get(field) if field in
entry.fields.keys() else ""`, returning the value and the entry as it is
after the access. -/
def get_fieldSt (entry : Entry) (field : String) : String × Entry :=
  let r := dictGet entry.fields field
  (match r.1 with
   | some v => v
   | none => "",
   { entry with fields := r.2 })

/-- The value `get_field` returns (the first component of the stateful
embedding). -/
def get_field (entry : Entry) (field : String) : String :=
  (get_fieldSt entry field).1

/-- The `entries` dict literal inside `entrytype`
(pelican_bibtex.py lines 35-50). -/
def entrytypeTable : List (String × (Nat × String)) :=
  [("book", (0, "Book")),
   ("incollection", (1, "Book in a Collection")),
   ("booklet", (2, "Booklet")),
   ("proceedings", (3, "Proceedings")),
   ("inbook", (4, "Chapter in a Book")),
   ("article", (5, "Journal Articles")),
   ("inproceedings", (6, "Papers")),
   ("conference", (7, "Papers")),
   ("phdthesis", (8, "PhD Thesis")),
   ("mastersthesis", (9, "Master Thesis")),
   ("techreport", (10, "Technical Report")),
   ("manual", (11, "Manual")),
   ("misc", (12, "Other Publications")),
   ("unpublished", (13, "Unpublished"))]

/-- Embedding of `entrytype` (pelican_bibtex.py lines 30-55):
`entries[label]` when `label in entries`, else `(100, label)`. -/
def entrytype (label : String) : Nat × String :=
  match lookupA entrytypeTable label with
  | some rl => rl
  | none => (100, label)

/-- A value stored in the publication record dict: a Python string, the
Python `None` that `fields.get('year')` yields for a missing year, or the
`(rank, label)` tuple stored under `entry`. -/
inductive Value where
  | vstr : String → Value
  | vnone : Value
  | ventry : Nat × String → Value
deriving DecidableEq

/-- Whether a record value is a Python string. -/
def isVstr : Value → Bool
  | Value.vstr _ => true
  | _ => false

/-- A publication record: the Python dict literal of
pelican_bibtex.py lines 112-124, as an association list in the literal's
key order. -/
abbrev Record := List (String × Value)

/-- The record's `year` value: `entry.fields.get('year')`, i.e. the string
when present and `None` when absent (pelican_bibtex.py line 122). -/
def yearValue : Option String → Value
  | some v => Value.vstr v
  | none => Value.vnone

/-- Embedding of one iteration of the `publications.append({...})` dict
construction (pelican_bibtex.py lines 112-124), threading the entry
through every field access so that the entry returned is the entry as the
loop body leaves it. `bibtex` is the writer's output for this entry and
`text` the already-stripped rendered citation. -/
def mkRecordSt (key : String) (entry : Entry) (bibtex text : String) :
    Record × Entry :=
  let p1 := get_fieldSt entry "doi"
  let p2 := get_fieldSt p1.2 "pdf"
  let p3 := get_fieldSt p2.2 "poster"
  let p4 := get_fieldSt p3.2 "slides"
  let p5 := get_fieldSt p4.2 "url"
  let p6 := get_fieldSt p5.2 "note"
  let py := dictGet p6.2.fields "year"
  let e7 : Entry := { p6.2 with fields := py.2 }
  let p8 := get_fieldSt e7 "authorizer"
  ([("bibtex", Value.vstr bibtex),
    ("doi", Value.vstr p1.1),
    ("entry", Value.ventry (entrytype entry.type)),
    ("key", Value.vstr key),
    ("pdf", Value.vstr p2.1),
    ("poster", Value.vstr p3.1),
    ("slides", Value.vstr p4.1),
    ("text", Value.vstr text),
    ("url", Value.vstr p5.1),
    ("note", Value.vstr p6.1),
    ("year", yearValue py.1),
    ("authorizer", Value.vstr p8.1)],
   p8.2)

/-- The publication record appended to the output list. -/
def mkRecord (key : String) (entry : Entry) (bibtex text : String) : Record :=
  (mkRecordSt key entry bibtex text).1

/-- The fixed key set of every publication record, in the dict literal's
order. -/
def recordKeys : List String :=
  ["bibtex", "doi", "entry", "key", "pdf", "poster", "slides", "text",
   "url", "note", "year", "authorizer"]

/-- The optional fields extracted through `get_field`. -/
def optionalFields : List String :=
  ["doi", "pdf", "poster", "slides", "url", "note", "authorizer"]

/-- Embedding of Python `text.replace(esc, "")` where `esc` is the
two-character pattern backslash-`b` (pelican_bibtex.py line 109):
scan left to right, drop each non-overlapping occurrence of the pair. -/
def stripPair (b : Char) : List Char → List Char
  | [] => []
  | [c] => [c]
  | c :: d :: rest =>
    if c = '\\' ∧ d = b then stripPair b rest
    else c :: stripPair b (d :: rest)

/-- Embedding of Python `text.replace(b, "")` for a single character `b`
(pelican_bibtex.py line 110): drop every occurrence of `b`. -/
def stripChar (b : Char) : List Char → List Char
  | [] => []
  | c :: rest => if c = b then stripChar b rest else c :: stripChar b rest

/-- The stripping pipeline of pelican_bibtex.py lines 109-110, on
character lists: remove the escaped-brace pairs first, then the remaining
single braces. -/
def stripText (s : List Char) : List Char :=
  stripChar '\x7d' (stripChar '\x7b' (stripPair '\x7d' (stripPair '\x7b' s)))

/-- The stripping pipeline on strings. -/
def stripAllBraces (s : String) : String :=
  String.mk (stripText s.data)

/-- Characters that the stripping step is not allowed to touch: anything
other than a brace or a backslash. -/
def keepChar (c : Char) : Bool :=
  !(c == '\x7b' || c == '\x7d' || c == '\\')

/-- A formatted entry as yielded by the external
`plain.Style().format_entries` (pelican_bibtex.py line 99): its `key` and
the text its `text.render(html.Backend())` call produces
(pelican_bibtex.py line 108). -/
structure FmtEntry where
  key : String
  rendered : String
deriving DecidableEq

/-- The parse result `bib_items` of the external pybtex parser: its
`entries` dict mapping keys to entries. -/
structure BibData where
  entries : List (String × Entry)
deriving DecidableEq

/-- One `LOGGER.warn` call: the format string and the arguments passed
for its placeholders. -/
structure LogEntry where
  msg : String
  args : List String
deriving DecidableEq

/-- The generator context, as far as this plugin touches it: a dict from
keys to publication lists. -/
abbrev Ctx := List (String × List Record)

/-- Python dict assignment `ctx[k] = v`: replace the binding in place
when the key exists, otherwise append it. -/
def ctxSet : Ctx → String → List Record → Ctx
  | [], k, v => [(k, v)]
  | p :: rest, k, v =>
    if p.1 = k then (k, v) :: rest else p :: ctxSet rest k v

/-- The `for fmt_entry in ...` loop body iterated over the formatted
entries (pelican_bibtex.py lines 99-124): look each key up in
`bib_items.entries`, serialise the entry with the writer oracle, strip
the rendered text, and collect the records in iteration order. `none`
models the `KeyError` a key absent from `entries` would raise. -/
def buildRecords (writeBib : String → Entry → String) (bib : BibData) :
    List FmtEntry → Option (List Record)
  | [] => some []
  | f :: rest =>
    match lookupA bib.entries f.key with
    | none => none
    | some entry =>
      match buildRecords writeBib bib rest with
      | none => none
      | some recs =>
        some (mkRecord f.key entry (writeBib f.key entry)
          (stripAllBraces f.rendered) :: recs)

/-- Embedding of `add_publications` (pelican_bibtex.py lines 58-126).
`pybtexOk` models whether the `pybtex` imports succeed, `parseFile` the
external `Parser().parse_file`, `formatEntries` the external style
formatter composed with the HTML render backend, and `writeBib` the
external BibTeX writer on a single-entry `BibliographyData`. The result
pairs the context after the call with the list of emitted log warnings;
`none` models an uncaught exception. -/
def add_publications (pybtexOk : Bool)
    (parseFile : String → Except String BibData)
    (formatEntries : List Entry → List FmtEntry)
    (writeBib : String → Entry → String)
    (settings : List (String × String)) (ctx : Ctx) :
    Option (Ctx × List LogEntry) :=
  match lookupA settings "PUBLICATIONS_SRC" with
  | none => some (ctx, [])
  | some src =>
    if pybtexOk then
      match parseFile src with
      | Except.error err =>
        some (ctx,
          [{ msg := "`pelican_bibtex` failed to parse file %s: %s",
             args := [src, err] }])
      | Except.ok bib =>
        match buildRecords writeBib bib
            (formatEntries (bib.entries.map (fun p => p.2))) with
        | none => none
        | some pubs => some (ctxSet ctx "publications" pubs, [])
    else
      some (ctx,
        [{ msg := "`pelican_bibtex` failed to load dependency `pybtex`",
           args := [] }])

end PelicanBibtex

namespace PelicanBibtex

theorem stripPair_sublist (b : Char) :
    ∀ s : List Char, (stripPair b s).Sublist s
  | [] => List.Sublist.refl []
  | [c] => List.Sublist.refl [c]
  | c :: d :: rest => by
    simp only [stripPair]
    split
    · exact ((stripPair_sublist b rest).cons d).cons c
    · exact (stripPair_sublist b (d :: rest)).cons₂ c

theorem stripPair_filter (b : Char) (P : Char → Bool) (hb : P '\\' = false)
    (hp : P b = false) :
    ∀ s : List Char, (stripPair b s).filter P = s.filter P
  | [] => rfl
  | [c] => rfl
  | c :: d :: rest => by
    simp only [stripPair]
    split
    · next h =>
      obtain ⟨hc, hd⟩ := h
      subst hc
      rw [stripPair_filter b P hb hp rest]
      simp [List.filter_cons, hb, hp, hd]
    · simp only [List.filter_cons, stripPair_filter b P hb hp (d :: rest)]

theorem stripChar_eq_filter (b : Char) :
    ∀ s : List Char, stripChar b s = s.filter (fun c => !(c == b))
  | [] => rfl
  | c :: rest => by
    simp only [stripChar, List.filter_cons, stripChar_eq_filter b rest]
    by_cases h : c = b
    · subst h
      simp
    · simp [h]

theorem stripChar_not_mem (b : Char) (s : List Char) : b ∉ stripChar b s := by
  rw [stripChar_eq_filter]
  simp [List.mem_filter]

theorem stripChar_sublist (b : Char) (s : List Char) :
    (stripChar b s).Sublist s := by
  rw [stripChar_eq_filter]
  exact List.filter_sublist s

theorem filter_absorb {p q : Char → Bool} (h : ∀ c, q c = true → p c = true) :
    ∀ s : List Char, (s.filter p).filter q = s.filter q
  | [] => rfl
  | c :: rest => by
    rcases hq : q c with _ | _
    · rcases hp : p c with _ | _
      · simp [List.filter_cons, hp, hq, filter_absorb h rest]
      · simp [List.filter_cons, hp, hq, filter_absorb h rest]
    · have hp := h c hq
      simp [List.filter_cons, hp, hq, filter_absorb h rest]

theorem stripChar_filter_keep (b : Char) (hb : keepChar b = false)
    (t : List Char) :
    (stripChar b t).filter keepChar = t.filter keepChar := by
  rw [stripChar_eq_filter]
  refine filter_absorb ?_ t
  intro c hc
  by_cases h : c = b
  · subst h
    rw [hb] at hc
    cases hc
  · simp [h]

theorem lookupA_mkRecord_of_optional (key : String) (entry : Entry)
    (bibtex text : String) (f : String) (hf : f ∈ optionalFields) :
    lookupA (mkRecord key entry bibtex text) f =
      some (Value.vstr (get_field entry f)) := by
  fin_cases hf <;> rfl

theorem lookupA_mkRecord_year (key : String) (entry : Entry)
    (bibtex text : String) :
    lookupA (mkRecord key entry bibtex text) "year" =
      some (yearValue (lookupA entry.fields "year")) := rfl

theorem get_field_of_lookup_some (entry : Entry) (f v : String)
    (hv : lookupA entry.fields f = some v) : get_field entry f = v := by
  simp [get_field, get_fieldSt, dictGet, hv]

theorem get_field_of_lookup_none (entry : Entry) (f : String)
    (hv : lookupA entry.fields f = none) : get_field entry f = "" := by
  simp [get_field, get_fieldSt, dictGet, hv]

/-- C3. Every known type tag is classified by the fixed table entry for
that tag, the ranks of the known tags are pairwise distinct (`article` in
particular maps to `(5, "Journal Articles")`), and every tag outside the
table is classified as `(100, tag)`. -/
theorem entrytype_ranks_distinct_and_fallback :
    (entrytypeTable.map (fun p => p.2.1)).Nodup
    ∧ (entrytypeTable.all (fun p => entrytype p.1 == p.2)) = true
    ∧ entrytype "article" = (5, "Journal Articles")
    ∧ ∀ tag : String, lookupA entrytypeTable tag = none →
        entrytype tag = (100, tag) := by
  refine ⟨by decide, by decide, by decide, ?_⟩
  intro tag htag
  simp [entrytype, htag]

/-- Witness for C3: the tag `unknownkind` is not in the table and is
classified as `(100, "unknownkind")`. -/
theorem entrytype_fallback_witness :
    entrytype "unknownkind" = (100, "unknownkind") :=
  entrytype_ranks_distinct_and_fallback.2.2.2 "unknownkind" (by decide)

/-- A concrete entry with no `year` field, as parsed from a BibTeX entry
that omits the year. -/
def entryNoYear : Entry :=
  { type := "misc", fields := [("doi", "10.1/x")] }

/-- Counterexample for C1: the record built for an entry without a `year`
field carries the Python `None` under the key `year`, which is not a
string value (and in particular not the empty string). -/
theorem record_year_none_counterexample :
    lookupA (mkRecord "k" entryNoYear "bib" "txt") "year" = some Value.vnone
    ∧ isVstr Value.vnone = false := by
  decide

/-- C1 (amended). Every record contains exactly the fixed twelve keys in
the dict literal's order; every optional field other than `year` (doi,
pdf, poster, slides, url, note, authorizer) holds the entry's string value
when the field is present and the empty string when it is absent; `year`
holds the entry's string value when present but the Python `None` (not a
string) when absent. -/
theorem record_fixed_keys_and_optional_defaults (key : String)
    (entry : Entry) (bibtex text : String) :
    (mkRecord key entry bibtex text).map Prod.fst = recordKeys
    ∧ (∀ f ∈ optionalFields,
        (∀ v, lookupA entry.fields f = some v →
          lookupA (mkRecord key entry bibtex text) f = some (Value.vstr v))
        ∧ (lookupA entry.fields f = none →
          lookupA (mkRecord key entry bibtex text) f = some (Value.vstr "")))
    ∧ (∀ v, lookupA entry.fields "year" = some v →
        lookupA (mkRecord key entry bibtex text) "year" = some (Value.vstr v))
    ∧ (lookupA entry.fields "year" = none →
        lookupA (mkRecord key entry bibtex text) "year" = some Value.vnone) := by
  refine ⟨rfl, ?_, ?_, ?_⟩
  · intro f hf
    constructor
    · intro v hv
      rw [lookupA_mkRecord_of_optional key entry bibtex text f hf,
        get_field_of_lookup_some entry f v hv]
    · intro hv
      rw [lookupA_mkRecord_of_optional key entry bibtex text f hf,
        get_field_of_lookup_none entry f hv]
  · intro v hv
    rw [lookupA_mkRecord_year, hv]
    rfl
  · intro hv
    rw [lookupA_mkRecord_year, hv]
    rfl

/-- A concrete entry with both a `year` and a `doi` field. -/
def entryWithYear : Entry :=
  { type := "article", fields := [("doi", "10.1/x"), ("year", "2020")] }

/-- Witness for C1 (amended): at a concrete entry carrying
`year = "2020"` and `doi = "10.1/x"`, the record stores those strings
under `year` and `doi`. -/
theorem record_fixed_keys_witness :
    lookupA (mkRecord "k" entryWithYear "bib" "txt") "year" =
      some (Value.vstr "2020")
    ∧ lookupA (mkRecord "k" entryWithYear "bib" "txt") "doi" =
      some (Value.vstr "10.1/x") :=
  ⟨(record_fixed_keys_and_optional_defaults "k" entryWithYear "bib"
      "txt").2.2.1 "2020" (by decide),
   ((record_fixed_keys_and_optional_defaults "k" entryWithYear "bib"
      "txt").2.1 "doi" (by decide)).1 "10.1/x" (by decide)⟩

/-- C7. The per-entry transform never mutates the parsed entry: threading
the entry through every field access of the record construction returns
it unchanged (its type, key and field mapping are intact), because every
access is a read (`fields.get`), never a removal. -/
theorem mkRecordSt_preserves_entry (key : String) (entry : Entry)
    (bibtex text : String) :
    (mkRecordSt key entry bibtex text).2 = entry
    ∧ (mkRecordSt key entry bibtex text).2.type = entry.type
    ∧ (mkRecordSt key entry bibtex text).2.fields = entry.fields := by
  exact ⟨rfl, rfl, rfl⟩

/-- C9. The classification's display labels are not distinct even though
its ranks are: `inproceedings` and `conference` both carry the label
`Papers` while their ranks 6 and 7 differ. -/
theorem entrytype_papers_label_shared :
    entrytype "inproceedings" = (6, "Papers")
    ∧ entrytype "conference" = (7, "Papers")
    ∧ (entrytype "inproceedings").2 = (entrytype "conference").2
    ∧ (entrytype "inproceedings").1 ≠ (entrytype "conference").1 := by
  decide

/-- C2. The stripping step (escaped braces first, then single braces)
leaves no brace and no escaped-brace sequence in the output, keeps the
output a subsequence of the input, preserves every character other than a
brace or a backslash in its original order, and turns the concrete input
`Example \x5c\x7bTitle\x5c\x7d with \x7bbraces\x7d` into
`Example Title with braces`. -/
theorem strip_braces_law :
    (∀ s : List Char,
      '\x7b' ∉ stripText s
      ∧ '\x7d' ∉ stripText s
      ∧ ¬ List.IsInfix ['\\', '\x7b'] (stripText s)
      ∧ ¬ List.IsInfix ['\\', '\x7d'] (stripText s)
      ∧ (stripText s).Sublist s
      ∧ (stripText s).filter keepChar = s.filter keepChar)
    ∧ stripAllBraces "Example \x5c\x7bTitle\x5c\x7d with \x7bbraces\x7d" =
        "Example Title with braces" := by
  constructor
  · intro s
    have hopen : '\x7b' ∉ stripText s := by
      intro hmem
      exact stripChar_not_mem '\x7b' _ ((stripChar_sublist '\x7d' _).subset hmem)
    have hclose : '\x7d' ∉ stripText s := stripChar_not_mem '\x7d' _
    refine ⟨hopen, hclose, ?_, ?_, ?_, ?_⟩
    · intro hinf
      exact hopen (hinf.sublist.subset (by simp))
    · intro hinf
      exact hclose (hinf.sublist.subset (by simp))
    · exact (stripChar_sublist '\x7d' _).trans
        ((stripChar_sublist '\x7b' _).trans
          ((stripPair_sublist '\x7d' _).trans (stripPair_sublist '\x7b' s)))
    · calc (stripText s).filter keepChar
          = (stripChar '\x7b'
              (stripPair '\x7d' (stripPair '\x7b' s))).filter keepChar :=
            stripChar_filter_keep '\x7d' (by decide) _
        _ = (stripPair '\x7d' (stripPair '\x7b' s)).filter keepChar :=
            stripChar_filter_keep '\x7b' (by decide) _
        _ = (stripPair '\x7b' s).filter keepChar :=
            stripPair_filter '\x7d' keepChar (by decide) (by decide) _
        _ = s.filter keepChar :=
            stripPair_filter '\x7b' keepChar (by decide) (by decide) s
  · rfl

theorem lookupA_cons {α : Type} (q : String × α) (l : List (String × α))
    (k : String) :
    lookupA (q :: l) k = if q.1 = k then some q.2 else lookupA l k := by
  by_cases h : q.1 = k
  · rw [if_pos h]
    unfold lookupA
    rw [List.find?_cons_of_pos _ (by simp [h])]
    rfl
  · rw [if_neg h]
    unfold lookupA
    rw [List.find?_cons_of_neg _ (by simp [h])]

theorem lookupA_ctxSet (ctx : Ctx) (k : String) (v : List Record) :
    lookupA (ctxSet ctx k v) k = some v := by
  induction ctx with
  | nil => simp [ctxSet, lookupA_cons]
  | cons p rest ih =>
    by_cases h : p.1 = k
    · simp [ctxSet, if_pos h, lookupA_cons]
    · simp only [ctxSet, if_neg h]
      rw [lookupA_cons, if_neg h]
      exact ih

theorem lookupA_ctxSet_ne (ctx : Ctx) (k : String) (v : List Record)
    (k2 : String) (hne : k2 ≠ k) :
    lookupA (ctxSet ctx k v) k2 = lookupA ctx k2 := by
  have hkk : k ≠ k2 := Ne.symm hne
  induction ctx with
  | nil => simp [ctxSet, lookupA_cons, hkk]
  | cons p rest ih =>
    by_cases h : p.1 = k
    · have h2 : p.1 ≠ k2 := by
        rw [h]
        exact hkk
      simp [ctxSet, if_pos h, lookupA_cons, hkk, h2]
    · simp only [ctxSet, if_neg h]
      rw [lookupA_cons, lookupA_cons]
      split
      · rfl
      · exact ih

theorem lookupA_mkRecord_key (key : String) (entry : Entry)
    (bibtex text : String) :
    lookupA (mkRecord key entry bibtex text) "key" =
      some (Value.vstr key) := rfl

theorem buildRecords_map_key (writeBib : String → Entry → String)
    (bib : BibData) :
    ∀ fs pubs, buildRecords writeBib bib fs = some pubs →
      pubs.map (fun r => lookupA r "key") =
        fs.map (fun f => some (Value.vstr f.key))
  | [], pubs, h => by
    simp only [buildRecords, Option.some.injEq] at h
    subst h
    rfl
  | f :: rest, pubs, h => by
    simp only [buildRecords] at h
    cases he : lookupA bib.entries f.key with
    | none => rw [he] at h; cases h
    | some entry =>
      rw [he] at h
      cases hb : buildRecords writeBib bib rest with
      | none => rw [hb] at h; cases h
      | some recs =>
        rw [hb] at h
        obtain rfl := (Option.some.injEq _ _).mp h
        simp [List.map_cons, lookupA_mkRecord_key,
          buildRecords_map_key writeBib bib rest recs hb]

/-- C5. When the settings dict has no `PUBLICATIONS_SRC` key the handler
is a no-op: it neither raises, nor mutates the context, nor logs. -/
theorem add_publications_no_src_noop (pybtexOk : Bool)
    (parseFile : String → Except String BibData)
    (formatEntries : List Entry → List FmtEntry)
    (writeBib : String → Entry → String)
    (settings : List (String × String)) (ctx : Ctx)
    (h : lookupA settings "PUBLICATIONS_SRC" = none) :
    add_publications pybtexOk parseFile formatEntries writeBib settings ctx
      = some (ctx, []) := by
  simp [add_publications, h]

/-- Witness for C5: empty settings leave an empty context untouched with
no log output. -/
theorem add_publications_no_src_noop_witness :
    add_publications true (fun _ => Except.error "e") (fun _ => [])
      (fun _ _ => "") [] [] = some ([], []) :=
  add_publications_no_src_noop true (fun _ => Except.error "e")
    (fun _ => []) (fun _ _ => "") [] [] rfl

/-- C4. When the source file is configured and parsing it fails, the
handler emits exactly one warning whose arguments are the file path and
the failure detail, and returns the context unchanged: no partial
publications list is published. -/
theorem add_publications_parse_failure (pybtexOk : Bool)
    (parseFile : String → Except String BibData)
    (formatEntries : List Entry → List FmtEntry)
    (writeBib : String → Entry → String)
    (settings : List (String × String)) (ctx : Ctx) (src err : String)
    (h1 : lookupA settings "PUBLICATIONS_SRC" = some src)
    (h2 : parseFile src = Except.error err) (h3 : pybtexOk = true) :
    add_publications pybtexOk parseFile formatEntries writeBib settings ctx
      = some (ctx,
          [{ msg := "`pelican_bibtex` failed to parse file %s: %s",
             args := [src, err] }]) := by
  subst h3
  simp [add_publications, h1, h2]

/-- Concrete settings pointing at the source file `pubs.bib`. -/
def settingsSample : List (String × String) :=
  [("PUBLICATIONS_SRC", "pubs.bib")]

/-- Witness for C4: with `pubs.bib` configured and a parser that fails
with `syntax error`, the context comes back unchanged beside a single
warning carrying the path and the error. -/
theorem add_publications_parse_failure_witness :
    add_publications true (fun _ => Except.error "syntax error")
      (fun _ => []) (fun _ _ => "") settingsSample [] =
      some ([],
        [{ msg := "`pelican_bibtex` failed to parse file %s: %s",
           args := ["pubs.bib", "syntax error"] }]) :=
  add_publications_parse_failure true (fun _ => Except.error "syntax error")
    (fun _ => []) (fun _ _ => "") settingsSample [] "pubs.bib"
    "syntax error" (by decide) rfl rfl

/-- C6. The builder is deterministic in its inputs: running it a second
time with the same settings, parser, formatter and writer — on the
context the first run produced — leaves the same value under
`publications` as the first run did (byte-identical lists). -/
theorem add_publications_idempotent (pybtexOk : Bool)
    (parseFile : String → Except String BibData)
    (formatEntries : List Entry → List FmtEntry)
    (writeBib : String → Entry → String)
    (settings : List (String × String)) (ctx ctx1 : Ctx)
    (log1 : List LogEntry) (ctx2 : Ctx) (log2 : List LogEntry)
    (h1 : add_publications pybtexOk parseFile formatEntries writeBib
      settings ctx = some (ctx1, log1))
    (h2 : add_publications pybtexOk parseFile formatEntries writeBib
      settings ctx1 = some (ctx2, log2)) :
    lookupA ctx2 "publications" = lookupA ctx1 "publications" := by
  cases hs : lookupA settings "PUBLICATIONS_SRC" with
  | none =>
    simp [add_publications, hs, Prod.mk.injEq] at h1 h2
    rw [← h2.1]
  | some src =>
    cases pybtexOk with
    | false =>
      simp [add_publications, hs, Prod.mk.injEq] at h1 h2
      rw [← h2.1]
    | true =>
      cases hp : parseFile src with
      | error err =>
        simp [add_publications, hs, hp, Prod.mk.injEq] at h1 h2
        rw [← h2.1]
      | ok bib =>
        cases hb : buildRecords writeBib bib
            (formatEntries (bib.entries.map (fun p => p.2))) with
        | none =>
          simp [add_publications, hs, hp, hb] at h1
        | some pubs =>
          simp [add_publications, hs, hp, hb, Prod.mk.injEq] at h1 h2
          rw [← h2.1, lookupA_ctxSet, ← h1.1, lookupA_ctxSet]

/-- A concrete one-entry bibliography for the success-path witnesses. -/
def bibSample : BibData := { entries := [("k1", entryWithYear)] }

/-- A concrete formatter oracle yielding the single entry `k1` with a
rendered text containing braces. -/
def formatSample : List Entry → List FmtEntry :=
  fun _ => [{ key := "k1", rendered := "A \x7bB\x7d" }]

/-- A concrete writer oracle. -/
def writeBibSample : String → Entry → String :=
  fun k _ => k

/-- The publication list the sample scenario produces. -/
def pubsSample : List Record :=
  (buildRecords writeBibSample bibSample
    (formatSample (bibSample.entries.map (fun p => p.2)))).getD []

/-- Witness for C6: with the concrete one-entry bibliography, the second
run stores the same list under `publications` as the first run. -/
theorem add_publications_idempotent_witness :
    lookupA (ctxSet (ctxSet [] "publications" pubsSample) "publications"
      pubsSample) "publications" =
    lookupA (ctxSet [] "publications" pubsSample) "publications" :=
  add_publications_idempotent true (fun _ => Except.ok bibSample)
    formatSample writeBibSample settingsSample []
    (ctxSet [] "publications" pubsSample) []
    (ctxSet (ctxSet [] "publications" pubsSample) "publications" pubsSample)
    [] rfl rfl

/-- C8. On success the handler stores the record list in the context
under the single key `publications` — that key then holds exactly the new
list, whatever was stored there before, and every other key is untouched
— and the records appear in exactly the order the external formatter
yielded the entries, with no sorting applied: the i-th record's `key`
field is the i-th formatted entry's key. -/
theorem add_publications_order_and_publish
    (parseFile : String → Except String BibData)
    (formatEntries : List Entry → List FmtEntry)
    (writeBib : String → Entry → String)
    (settings : List (String × String)) (ctx : Ctx) (src : String)
    (bib : BibData) (pubs : List Record)
    (h1 : lookupA settings "PUBLICATIONS_SRC" = some src)
    (h2 : parseFile src = Except.ok bib)
    (h3 : buildRecords writeBib bib
      (formatEntries (bib.entries.map (fun p => p.2))) = some pubs) :
    add_publications true parseFile formatEntries writeBib settings ctx =
      some (ctxSet ctx "publications" pubs, [])
    ∧ lookupA (ctxSet ctx "publications" pubs) "publications" = some pubs
    ∧ (∀ k2, k2 ≠ "publications" →
        lookupA (ctxSet ctx "publications" pubs) k2 = lookupA ctx k2)
    ∧ pubs.map (fun r => lookupA r "key") =
        (formatEntries (bib.entries.map (fun p => p.2))).map
          (fun f => some (Value.vstr f.key)) := by
  refine ⟨?_, lookupA_ctxSet ctx "publications" pubs,
    fun k2 hk2 => lookupA_ctxSet_ne ctx "publications" pubs k2 hk2,
    buildRecords_map_key writeBib bib _ pubs h3⟩
  simp [add_publications, h1, h2, h3]

/-- Witness for C8: the sample scenario publishes its one-record list
under `publications` and the record's `key` is the formatter's `k1`. -/
theorem add_publications_order_and_publish_witness :
    add_publications true (fun _ => Except.ok bibSample) formatSample
      writeBibSample settingsSample [] =
      some (ctxSet [] "publications" pubsSample, [])
    ∧ pubsSample.map (fun r => lookupA r "key") =
        [some (Value.vstr "k1")] :=
  ⟨(add_publications_order_and_publish (fun _ => Except.ok bibSample)
      formatSample writeBibSample settingsSample [] "pubs.bib" bibSample
      pubsSample (by decide) rfl rfl).1,
   (add_publications_order_and_publish (fun _ => Except.ok bibSample)
      formatSample writeBibSample settingsSample [] "pubs.bib" bibSample
      pubsSample (by decide) rfl rfl).2.2.2⟩

/-- C10. When the source file parses to an empty bibliography (and the
external formatter accordingly yields no entries), the handler still
mutates the context: `publications` is set to the empty list rather than
left alone. -/
theorem add_publications_empty_bib
    (parseFile : String → Except String BibData)
    (formatEntries : List Entry → List FmtEntry)
    (writeBib : String → Entry → String)
    (settings : List (String × String)) (ctx : Ctx) (src : String)
    (h1 : lookupA settings "PUBLICATIONS_SRC" = some src)
    (h2 : parseFile src = Except.ok { entries := [] })
    (h3 : formatEntries [] = []) :
    add_publications true parseFile formatEntries writeBib settings ctx =
      some (ctxSet ctx "publications" [], [])
    ∧ lookupA (ctxSet ctx "publications" []) "publications" =
        some ([] : List Record) := by
  refine ⟨?_, lookupA_ctxSet ctx "publications" []⟩
  simp [add_publications, h1, h2, h3, buildRecords]

/-- Witness for C10: an empty bibliography sets `publications` to `[]`
in an initially empty context. -/
theorem add_publications_empty_bib_witness :
    add_publications true (fun _ => Except.ok { entries := [] })
      (fun _ => []) (fun k _ => k) settingsSample [] =
      some (ctxSet [] "publications" [], [])
    ∧ lookupA (ctxSet ([] : Ctx) "publications" []) "publications" =
        some ([] : List Record) :=
  add_publications_empty_bib (fun _ => Except.ok { entries := [] })
    (fun _ => []) (fun k _ => k) settingsSample [] "pubs.bib"
    (by decide) rfl rfl

end PelicanBibtex
